import Mathlib

/-!
Shallow embedding of the air-conditioner attribute synchronizer
(class MideaACDevice in the repository source) and proofs about its
claims.  The TypeScript semantics relevant here (JS truthiness tests,
JS enumeration order of integer-like object keys, dynamic property
assignment) is embedded explicitly; comments at the corresponding
definitions record the choice.
-/

namespace MideaAC

/-- Attribute values as they occur in the device model: booleans,
numbers (modelled as integers; the claims under study never exercise
fractional temperatures) and short strings. -/
inductive Val where
  | b (b : Bool)
  | n (n : Int)
  | s (s : String)
deriving DecidableEq, Repr

/-- The DeviceAttributes record.  Fields initialised in the constructor
are plain typed fields; the optional fields of the interface that the
constructor leaves undefined (sensor readings and FRESH_AIR_MODE) are
Option-valued, none meaning the key is absent from the object. -/
structure ACAttributes where
  PROMPT_TONE : Bool
  POWER : Bool
  MODE : Int
  TARGET_TEMPERATURE : Int
  FAN_SPEED : Int
  SWING_VERTICAL : Bool
  SWING_HORIZONTAL : Bool
  SMART_EYE : Bool
  DRY : Bool
  AUX_HEATING : Bool
  BOOST_MODE : Bool
  SLEEP_MODE : Bool
  FROST_PROTECT : Bool
  COMFORT_MODE : Bool
  ECO_MODE : Bool
  NATURAL_WIND : Bool
  TEMP_FAHRENHEIT : Bool
  SCREEN_DISPLAY : Bool
  SCREEN_DISPLAY_NEW : Bool
  FULL_DUST : Bool
  INDIRECT_WIND : Bool
  BREEZELESS : Bool
  REALTIME_POWER : Int
  FRESH_AIR_POWER : Bool
  FRESH_AIR_FAN_SPEED : Int
  FRESH_AIR_1 : Bool
  FRESH_AIR_2 : Bool
  INDOOR_TEMPERATURE : Option Int := none
  OUTDOOR_TEMPERATURE : Option Int := none
  INDOOR_HUMIDITY : Option Int := none
  TOTAL_ENERGY_CONSUMPTION : Option Int := none
  CURRENT_ENERGY_CONSUMPTION : Option Int := none
  FRESH_AIR_MODE : Option String := none
deriving DecidableEq, Repr

/-- Modelled from the spec: the Message Codec (class MessageACResponse,
whose source file is not part of the excerpt) exposes a generic
get-body-field-by-name accessor returning the value of the field when the
response carries it and undefined otherwise, with fields carrying
values of the declared type of the attribute, plus the sub-protocol marker
and the two sub-protocol-only flags sn8_flag and timer.  A decoded
response body is therefore a record of optional typed fields. -/
structure ACBody where
  used_subprotocol : Bool := false
  sn8_flag : Option Bool := none
  timer : Option Bool := none
  PROMPT_TONE : Option Bool := none
  POWER : Option Bool := none
  MODE : Option Int := none
  TARGET_TEMPERATURE : Option Int := none
  FAN_SPEED : Option Int := none
  SWING_VERTICAL : Option Bool := none
  SWING_HORIZONTAL : Option Bool := none
  SMART_EYE : Option Bool := none
  DRY : Option Bool := none
  AUX_HEATING : Option Bool := none
  BOOST_MODE : Option Bool := none
  SLEEP_MODE : Option Bool := none
  FROST_PROTECT : Option Bool := none
  COMFORT_MODE : Option Bool := none
  ECO_MODE : Option Bool := none
  NATURAL_WIND : Option Bool := none
  TEMP_FAHRENHEIT : Option Bool := none
  SCREEN_DISPLAY : Option Bool := none
  SCREEN_DISPLAY_NEW : Option Bool := none
  FULL_DUST : Option Bool := none
  INDIRECT_WIND : Option Bool := none
  BREEZELESS : Option Bool := none
  REALTIME_POWER : Option Int := none
  FRESH_AIR_POWER : Option Bool := none
  FRESH_AIR_FAN_SPEED : Option Int := none
  FRESH_AIR_1 : Option Bool := none
  FRESH_AIR_2 : Option Bool := none
  FRESH_AIR_MODE : Option String := none
deriving DecidableEq, Repr

/-- The new_status object returned by process_message: for each
scanned attribute name, some v when the name was recorded with value v.
FRESH_AIR_MODE may be recorded while the stored attribute is still
undefined, hence the doubly optional type (some none models the JS key
being present with value undefined). -/
structure ChangeSet where
  PROMPT_TONE : Option Bool := none
  POWER : Option Bool := none
  MODE : Option Int := none
  TARGET_TEMPERATURE : Option Int := none
  FAN_SPEED : Option Int := none
  SWING_VERTICAL : Option Bool := none
  SWING_HORIZONTAL : Option Bool := none
  SMART_EYE : Option Bool := none
  DRY : Option Bool := none
  AUX_HEATING : Option Bool := none
  BOOST_MODE : Option Bool := none
  SLEEP_MODE : Option Bool := none
  FROST_PROTECT : Option Bool := none
  COMFORT_MODE : Option Bool := none
  ECO_MODE : Option Bool := none
  NATURAL_WIND : Option Bool := none
  TEMP_FAHRENHEIT : Option Bool := none
  SCREEN_DISPLAY : Option Bool := none
  SCREEN_DISPLAY_NEW : Option Bool := none
  FULL_DUST : Option Bool := none
  INDIRECT_WIND : Option Bool := none
  BREEZELESS : Option Bool := none
  REALTIME_POWER : Option Int := none
  FRESH_AIR_POWER : Option Bool := none
  FRESH_AIR_FAN_SPEED : Option Int := none
  FRESH_AIR_1 : Option Bool := none
  FRESH_AIR_2 : Option Bool := none
  FRESH_AIR_MODE : Option (Option String) := none
deriving DecidableEq, Repr

/-- Per-device session state of MideaACDevice: the attribute object and
the private fields touched by the operations under study. -/
structure ACState where
  attributes : ACAttributes
  fresh_air_version : Option Nat := none
  used_subprotocol : Bool := false
  bb_sn8_flag : Bool := false
  bb_timer : Bool := false
deriving DecidableEq, Repr

/-- The attribute object built in the constructor of MideaACDevice. -/
def initAttributes : ACAttributes where
  PROMPT_TONE := false
  POWER := false
  MODE := 0
  TARGET_TEMPERATURE := 24
  FAN_SPEED := 102
  SWING_VERTICAL := false
  SWING_HORIZONTAL := false
  SMART_EYE := false
  DRY := false
  AUX_HEATING := false
  BOOST_MODE := false
  SLEEP_MODE := false
  FROST_PROTECT := false
  COMFORT_MODE := false
  ECO_MODE := false
  NATURAL_WIND := false
  TEMP_FAHRENHEIT := false
  SCREEN_DISPLAY := false
  SCREEN_DISPLAY_NEW := false
  FULL_DUST := false
  INDIRECT_WIND := false
  BREEZELESS := false
  REALTIME_POWER := 0
  FRESH_AIR_POWER := false
  FRESH_AIR_FAN_SPEED := 0
  FRESH_AIR_1 := false
  FRESH_AIR_2 := false

/-- Freshly constructed device session. -/
def initState : ACState where
  attributes := initAttributes

/-- JS truthiness of an optional boolean field value (undefined and
false are falsy). -/
def truthyB : Option Bool → Bool
  | some b => b
  | none => false

/-- Merge of one boolean attribute, following the source loop
`if (message.get_body_attribute(status)) { ... this.attributes[status] = value; }`:
the field is committed only when its carried value is truthy, so the
committed boolean is necessarily true. -/
def mergeBVal (cur : Bool) (b : Option Bool) : Bool :=
  if b = some true then true else cur

/-- Change-set entry of one boolean attribute under the same truthiness
test. -/
def mergeBCS (b : Option Bool) : Option Bool :=
  if b = some true then some true else none

/-- Merge of one numeric attribute: a carried 0 is falsy in JS and is
skipped by the truthiness test of the loop. -/
def mergeIVal (cur : Int) : Option Int → Int
  | some n => if n = 0 then cur else n
  | none => cur

/-- Change-set entry of one numeric attribute. -/
def mergeICS : Option Int → Option Int
  | some n => if n = 0 then none else some n
  | none => none

/-- Merge of the FRESH_AIR_MODE string attribute.  The loop iterates
Object.keys of the attribute object, so this key participates only
once the stored attribute exists (cur is some); an empty string would
be falsy. -/
def mergeSVal (cur : Option String) (b : Option String) : Option String :=
  match cur, b with
  | some c, some s => if s = "" then some c else some s
  | c, _ => c

/-- Change-set entry of the FRESH_AIR_MODE string attribute under the
scan. -/
def mergeSCS (cur : Option String) (b : Option String) : Option (Option String) :=
  match cur, b with
  | some _, some s => if s = "" then none else some (some s)
  | _, _ => none

/-- The attribute object after the merge loop of process_message. -/
def merge_attributes (a : ACAttributes) (body : ACBody) : ACAttributes where
  PROMPT_TONE := mergeBVal a.PROMPT_TONE body.PROMPT_TONE
  POWER := mergeBVal a.POWER body.POWER
  MODE := mergeIVal a.MODE body.MODE
  TARGET_TEMPERATURE := mergeIVal a.TARGET_TEMPERATURE body.TARGET_TEMPERATURE
  FAN_SPEED := mergeIVal a.FAN_SPEED body.FAN_SPEED
  SWING_VERTICAL := mergeBVal a.SWING_VERTICAL body.SWING_VERTICAL
  SWING_HORIZONTAL := mergeBVal a.SWING_HORIZONTAL body.SWING_HORIZONTAL
  SMART_EYE := mergeBVal a.SMART_EYE body.SMART_EYE
  DRY := mergeBVal a.DRY body.DRY
  AUX_HEATING := mergeBVal a.AUX_HEATING body.AUX_HEATING
  BOOST_MODE := mergeBVal a.BOOST_MODE body.BOOST_MODE
  SLEEP_MODE := mergeBVal a.SLEEP_MODE body.SLEEP_MODE
  FROST_PROTECT := mergeBVal a.FROST_PROTECT body.FROST_PROTECT
  COMFORT_MODE := mergeBVal a.COMFORT_MODE body.COMFORT_MODE
  ECO_MODE := mergeBVal a.ECO_MODE body.ECO_MODE
  NATURAL_WIND := mergeBVal a.NATURAL_WIND body.NATURAL_WIND
  TEMP_FAHRENHEIT := mergeBVal a.TEMP_FAHRENHEIT body.TEMP_FAHRENHEIT
  SCREEN_DISPLAY := mergeBVal a.SCREEN_DISPLAY body.SCREEN_DISPLAY
  SCREEN_DISPLAY_NEW := mergeBVal a.SCREEN_DISPLAY_NEW body.SCREEN_DISPLAY_NEW
  FULL_DUST := mergeBVal a.FULL_DUST body.FULL_DUST
  INDIRECT_WIND := mergeBVal a.INDIRECT_WIND body.INDIRECT_WIND
  BREEZELESS := mergeBVal a.BREEZELESS body.BREEZELESS
  REALTIME_POWER := mergeIVal a.REALTIME_POWER body.REALTIME_POWER
  FRESH_AIR_POWER := mergeBVal a.FRESH_AIR_POWER body.FRESH_AIR_POWER
  FRESH_AIR_FAN_SPEED := mergeIVal a.FRESH_AIR_FAN_SPEED body.FRESH_AIR_FAN_SPEED
  FRESH_AIR_1 := mergeBVal a.FRESH_AIR_1 body.FRESH_AIR_1
  FRESH_AIR_2 := mergeBVal a.FRESH_AIR_2 body.FRESH_AIR_2
  -- the never-initialised sensor keys are not in Object.keys of the
  -- attribute object and are therefore never scanned by the loop
  INDOOR_TEMPERATURE := a.INDOOR_TEMPERATURE
  OUTDOOR_TEMPERATURE := a.OUTDOOR_TEMPERATURE
  INDOOR_HUMIDITY := a.INDOOR_HUMIDITY
  TOTAL_ENERGY_CONSUMPTION := a.TOTAL_ENERGY_CONSUMPTION
  CURRENT_ENERGY_CONSUMPTION := a.CURRENT_ENERGY_CONSUMPTION
  FRESH_AIR_MODE := mergeSVal a.FRESH_AIR_MODE body.FRESH_AIR_MODE

/-- The new_status object as filled by the merge loop of
process_message, before the derived and forced entries. -/
def merge_changeset (a : ACAttributes) (body : ACBody) : ChangeSet where
  PROMPT_TONE := mergeBCS body.PROMPT_TONE
  POWER := mergeBCS body.POWER
  MODE := mergeICS body.MODE
  TARGET_TEMPERATURE := mergeICS body.TARGET_TEMPERATURE
  FAN_SPEED := mergeICS body.FAN_SPEED
  SWING_VERTICAL := mergeBCS body.SWING_VERTICAL
  SWING_HORIZONTAL := mergeBCS body.SWING_HORIZONTAL
  SMART_EYE := mergeBCS body.SMART_EYE
  DRY := mergeBCS body.DRY
  AUX_HEATING := mergeBCS body.AUX_HEATING
  BOOST_MODE := mergeBCS body.BOOST_MODE
  SLEEP_MODE := mergeBCS body.SLEEP_MODE
  FROST_PROTECT := mergeBCS body.FROST_PROTECT
  COMFORT_MODE := mergeBCS body.COMFORT_MODE
  ECO_MODE := mergeBCS body.ECO_MODE
  NATURAL_WIND := mergeBCS body.NATURAL_WIND
  TEMP_FAHRENHEIT := mergeBCS body.TEMP_FAHRENHEIT
  SCREEN_DISPLAY := mergeBCS body.SCREEN_DISPLAY
  SCREEN_DISPLAY_NEW := mergeBCS body.SCREEN_DISPLAY_NEW
  FULL_DUST := mergeBCS body.FULL_DUST
  INDIRECT_WIND := mergeBCS body.INDIRECT_WIND
  BREEZELESS := mergeBCS body.BREEZELESS
  REALTIME_POWER := mergeICS body.REALTIME_POWER
  FRESH_AIR_POWER := mergeBCS body.FRESH_AIR_POWER
  FRESH_AIR_FAN_SPEED := mergeICS body.FRESH_AIR_FAN_SPEED
  FRESH_AIR_1 := mergeBCS body.FRESH_AIR_1
  FRESH_AIR_2 := mergeBCS body.FRESH_AIR_2
  FRESH_AIR_MODE := mergeSCS a.FRESH_AIR_MODE body.FRESH_AIR_MODE

/-- The speed-to-name table, in the order JavaScript enumerates it.
Both FRESH_AIR_FAN_SPEEDS and FRESH_AIR_FAN_SPEEDS_REVERSE are object
literals whose keys are the numeric strings 0/20/40/60/80/100; such
integer-like keys are enumerated in ascending numeric order by
Object.entries regardless of the order they are written in, so the
REVERSE table (written descending in the source) is in fact iterated
ascending. -/
def fresh_air_entries : List (Int × String) :=
  [(0, "Off"), (20, "Silent"), (40, "Low"), (60, "Medium"), (80, "High"), (100, "Full")]

/-- The scan loop over the (ascending) entries of
FRESH_AIR_FAN_SPEEDS_REVERSE: break at the first key below the current
speed, otherwise keep overwriting FRESH_AIR_MODE with the name of
the entry. -/
def freshAirScanGo : List (Int × String) → Int → Option String → Option String
  | [], _, m => m
  | (k, v) :: rest, speed, m =>
      if speed > k then m else freshAirScanGo rest speed (some v)

/-- The process_message method of MideaACDevice: sub-protocol marker
capture, merge loop over the scanned attribute names, fresh-air mode
derivation, power-off invariant corrections and sticky fresh-air
version detection.  The source mutates this.attributes and new_status
in place; the state passing below performs the same field updates in
the same order (independent field writes are grouped). -/
def process_message (st : ACState) (body : ACBody) : ACState × ChangeSet :=
  let used_sub := st.used_subprotocol || body.used_subprotocol
  let sn8 := if body.used_subprotocol && truthyB body.sn8_flag then true else st.bb_sn8_flag
  let tmr := if body.used_subprotocol && truthyB body.timer then true else st.bb_timer
  let a1 := merge_attributes st.attributes body
  let cs1 := merge_changeset st.attributes body
  let has_fresh_air := body.FRESH_AIR_POWER = some true
  let fam :=
    if has_fresh_air then
      if a1.FRESH_AIR_POWER then
        freshAirScanGo fresh_air_entries a1.FRESH_AIR_FAN_SPEED a1.FRESH_AIR_MODE
      else some "Off"
    else a1.FRESH_AIR_MODE
  let indirect_cond := (!a1.POWER) || (cs1.SWING_VERTICAL.isSome && a1.SWING_VERTICAL)
  let power_off := !a1.POWER
  let fav := if a1.FRESH_AIR_1 then some 1 else if a1.FRESH_AIR_2 then some 2 else st.fresh_air_version
  ({ attributes :=
      { a1 with
        FRESH_AIR_MODE := fam,
        INDIRECT_WIND := if indirect_cond then false else a1.INDIRECT_WIND,
        SCREEN_DISPLAY := if power_off then false else a1.SCREEN_DISPLAY },
     fresh_air_version := fav,
     used_subprotocol := used_sub,
     bb_sn8_flag := sn8,
     bb_timer := tmr },
   { cs1 with
     FRESH_AIR_MODE := if has_fresh_air then some fam else cs1.FRESH_AIR_MODE,
     INDIRECT_WIND := if indirect_cond then some false else cs1.INDIRECT_WIND,
     SCREEN_DISPLAY := if power_off then some false else cs1.SCREEN_DISPLAY })

/-- Modelled from the spec: the outbound query message kinds produced
by build_query (the message classes live in the codec file, which is
not part of the excerpt); a sub-protocol query carries its query
code. -/
inductive QueryMessage where
  | query
  | newProtocolQuery
  | powerQuery
  | subProtocolQuery (code : Nat)
deriving DecidableEq, Repr

/-- The build_query method: three fixed sub-protocol queries once the
sub-protocol is in use, otherwise the general status, new-protocol and
power queries. -/
def build_query (st : ACState) : List QueryMessage :=
  if st.used_subprotocol then
    [QueryMessage.subProtocolQuery 0x10, QueryMessage.subProtocolQuery 0x11,
     QueryMessage.subProtocolQuery 0x30]
  else
    [QueryMessage.query, QueryMessage.newProtocolQuery, QueryMessage.powerQuery]

/-- Fields of a MessageGeneralSet command as assigned by
make_message_set; Val-typed because set_attribute later assigns raw
request values into them. -/
structure MessageGeneralSet where
  power : Val
  prompt_tone : Val
  mode : Val
  target_temperature : Val
  fan_speed : Val
  swing_vertical : Val
  swing_horizontal : Val
  boost_mode : Val
  smart_eye : Val
  dry : Val
  eco_mode : Val
  aux_heating : Val
  sleep_mode : Val
  frost_protect : Val
  comfort_mode : Val
  natural_wind : Val
  temp_fahrenheit : Val
deriving DecidableEq, Repr

/-- Fields of a MessageSubProtocolSet command as assigned by
make_subprotocol_message_set.  The class has no frost_protect or
comfort_mode fields; the dynamic key assignment in the source
can still attach them as expando properties, modelled by
the two trailing Option fields (none meaning the property was never
attached). -/
structure MessageSubProtocolSet where
  power : Val
  prompt_tone : Val
  aux_heating : Val
  mode : Val
  target_temperature : Val
  fan_speed : Val
  boost_mode : Val
  dry : Val
  eco_mode : Val
  sleep_mode : Val
  sn8_flag : Val
  timer : Val
  frost_protect : Option Val := none
  comfort_mode : Option Val := none
deriving DecidableEq, Repr

/-- Fields of a MessageNewProtocolSet command; every field is optional
because the builder only sets the tagged sub-fields the request needs.
The numeric properties 1 and 2 (the version-tagged fresh-air tuples
(power, fan speed)) are fresh_air_1 and fresh_air_2. -/
structure MessageNewProtocolSet where
  prompt_tone : Option Val := none
  screen_display : Option Val := none
  indirect_wind : Option Val := none
  breezeless : Option Val := none
  fresh_air_1 : Option (Val × Int) := none
  fresh_air_2 : Option (Val × Int) := none
deriving DecidableEq, Repr

/-- An outbound set command handed to build_send. -/
inductive OutMessage where
  | general (m : MessageGeneralSet)
  | subproto (m : MessageSubProtocolSet)
  | newproto (m : MessageNewProtocolSet)
  | switchDisplay
deriving DecidableEq, Repr

/-- Discriminates the general-family status-set command. -/
def OutMessage.isGeneral : OutMessage → Bool
  | .general _ => true
  | _ => false

/-- The make_message_set method: a MessageGeneralSet populated from the
stored attributes. -/
def make_message_set (st : ACState) : MessageGeneralSet where
  power := Val.b st.attributes.POWER
  prompt_tone := Val.b st.attributes.PROMPT_TONE
  mode := Val.n st.attributes.MODE
  target_temperature := Val.n st.attributes.TARGET_TEMPERATURE
  fan_speed := Val.n st.attributes.FAN_SPEED
  swing_vertical := Val.b st.attributes.SWING_VERTICAL
  swing_horizontal := Val.b st.attributes.SWING_HORIZONTAL
  boost_mode := Val.b st.attributes.BOOST_MODE
  smart_eye := Val.b st.attributes.SMART_EYE
  dry := Val.b st.attributes.DRY
  eco_mode := Val.b st.attributes.ECO_MODE
  aux_heating := Val.b st.attributes.AUX_HEATING
  sleep_mode := Val.b st.attributes.SLEEP_MODE
  frost_protect := Val.b st.attributes.FROST_PROTECT
  comfort_mode := Val.b st.attributes.COMFORT_MODE
  natural_wind := Val.b st.attributes.NATURAL_WIND
  temp_fahrenheit := Val.b st.attributes.TEMP_FAHRENHEIT

/-- The make_subprotocol_message_set method: a MessageSubProtocolSet
populated from the stored attributes and the captured sub-protocol
flags. -/
def make_subprotocol_message_set (st : ACState) : MessageSubProtocolSet where
  power := Val.b st.attributes.POWER
  prompt_tone := Val.b st.attributes.PROMPT_TONE
  aux_heating := Val.b st.attributes.AUX_HEATING
  mode := Val.n st.attributes.MODE
  target_temperature := Val.n st.attributes.TARGET_TEMPERATURE
  fan_speed := Val.n st.attributes.FAN_SPEED
  boost_mode := Val.b st.attributes.BOOST_MODE
  dry := Val.b st.attributes.DRY
  eco_mode := Val.b st.attributes.ECO_MODE
  sleep_mode := Val.b st.attributes.SLEEP_MODE
  sn8_flag := Val.b st.bb_sn8_flag
  timer := Val.b st.bb_timer

/-- The sensor-only attribute names excluded at the top of the
set_attribute loop. -/
def sensor_names : List String :=
  ["INDOOR_TEMPERATURE", "OUTDOOR_TEMPERATURE", "INDOOR_HUMIDITY", "FULL_DUST",
   "TOTAL_ENERGY_CONSUMPTION", "CURRENT_ENERGY_CONSUMPTION", "REALTIME_POWER"]

/-- The mutually exclusive mode attribute names checked in the generic
branch of set_attribute. -/
def mode_group : List String :=
  ["BOOST_MODE", "SLEEP_MODE", "FROST_PROTECT", "COMFORT_MODE", "ECO_MODE"]

/-- The dynamic assignment `message[k.toLowerCase()] = v as boolean` on
a MessageGeneralSet, for the keys that reach it (the mode-group
names). -/
def assign_general (m : MessageGeneralSet) (k : String) (v : Val) : MessageGeneralSet :=
  if k = "BOOST_MODE" then { m with boost_mode := v }
  else if k = "SLEEP_MODE" then { m with sleep_mode := v }
  else if k = "FROST_PROTECT" then { m with frost_protect := v }
  else if k = "COMFORT_MODE" then { m with comfort_mode := v }
  else if k = "ECO_MODE" then { m with eco_mode := v }
  else m

/-- The same dynamic assignment on a MessageSubProtocolSet; the class
has no frost_protect or comfort_mode fields, so those two become
expando properties. -/
def assign_subprotocol (m : MessageSubProtocolSet) (k : String) (v : Val) : MessageSubProtocolSet :=
  if k = "BOOST_MODE" then { m with boost_mode := v }
  else if k = "SLEEP_MODE" then { m with sleep_mode := v }
  else if k = "FROST_PROTECT" then { m with frost_protect := some v }
  else if k = "COMFORT_MODE" then { m with comfort_mode := some v }
  else if k = "ECO_MODE" then { m with eco_mode := v }
  else m

/-- The mode-group block of set_attribute on a general-family message:
clear sleep, boost and eco, additionally clear frost_protect and
comfort_mode (the message is a MessageGeneralSet), assign the requested
key, and set power for a MODE key.  The final conditional mirrors the
source literally; it is unreachable because MODE is not in the group
list guarding this block. -/
def apply_mode_group_general (m : MessageGeneralSet) (k : String) (v : Val) : MessageGeneralSet :=
  if k ∈ mode_group then
    let m1 := { m with sleep_mode := Val.b false, boost_mode := Val.b false,
                       eco_mode := Val.b false, frost_protect := Val.b false,
                       comfort_mode := Val.b false }
    let m2 := assign_general m1 k v
    if k = "MODE" then { m2 with power := Val.b true } else m2
  else m

/-- The mode-group block of set_attribute on a sub-protocol message:
only sleep, boost and eco are cleared (the instanceof MessageGeneralSet
test fails), then the requested key is assigned. -/
def apply_mode_group_subprotocol (m : MessageSubProtocolSet) (k : String) (v : Val) : MessageSubProtocolSet :=
  if k ∈ mode_group then
    let m1 := { m with sleep_mode := Val.b false, boost_mode := Val.b false,
                       eco_mode := Val.b false }
    let m2 := assign_subprotocol m1 k v
    if k = "MODE" then { m2 with power := Val.b true } else m2
  else m

/-- The final else branch of the set_attribute dispatch: a status-set
command of the currently selected protocol family, populated from the
stored attributes, with the mode-group block applied. -/
def generic_message (st : ACState) (k : String) (v : Val) : Option OutMessage :=
  if st.used_subprotocol then
    some (OutMessage.subproto (apply_mode_group_subprotocol (make_subprotocol_message_set st) k v))
  else
    some (OutMessage.general (apply_mode_group_general (make_message_set st) k v))

/-- Resolution of a desired FRESH_AIR_MODE name to its numeric speed:
Object.keys(this.FRESH_AIR_FAN_SPEEDS).find on the value.  The table
values are distinct, so enumeration order is irrelevant here. -/
def speed_of_mode : String → Option Int
  | "Off" => some 0
  | "Silent" => some 20
  | "Low" => some 40
  | "Medium" => some 60
  | "High" => some 80
  | "Full" => some 100
  | _ => none

/-- The `Object.values(...).includes(v)` test combined with the key
lookup: a desired value resolves to a speed only when it is one of the
name strings of the table. -/
def mode_speed_of_val : Val → Option Int
  | .s s => speed_of_mode s
  | _ => none

/-- JS falsiness `!v` of a request value (numeric strings aside, which
the claims never exercise). -/
def valFalsy : Val → Bool
  | .b b => !b
  | .n n => n = 0
  | .s s => s = ""

/-- The JS comparison `(v as number) > 0` of a request value (booleans
coerce to 0/1; non-numeric strings compare false; numeric strings are
not modelled, the claims never exercise them). -/
def valGtZero : Val → Bool
  | .b b => b
  | .n n => 0 < n
  | .s _ => false

/-- JS ToNumber of a request value, as used when the raw value is
placed into the fresh-air tuple (same caveat on numeric strings). -/
def valToInt : Val → Int
  | .b b => if b then 1 else 0
  | .n n => n
  | .s _ => 0

/-- The `message[this.fresh_air_version] = [power, speed]` assignment:
a MessageNewProtocolSet whose version-tagged numeric property carries
the fresh-air tuple. -/
def newproto_fresh_air (ver : Nat) (fa : Val × Int) : MessageNewProtocolSet :=
  if ver = 1 then { fresh_air_1 := some fa }
  else if ver = 2 then { fresh_air_2 := some fa }
  else {}

/-- The state change of one iteration of the set_attribute loop: only a
PROMPT_TONE request mutates this.attributes (storing the tone
preference); every other branch leaves the state untouched.  The
TypeScript signature restricts a PROMPT_TONE value to boolean, so only
a boolean value is representable there. -/
def set_attribute_state (st : ACState) (k : String) (v : Val) : ACState :=
  if k ∈ sensor_names then st
  else if k = "PROMPT_TONE" then
    match v with
    | .b b => { st with attributes := { st.attributes with PROMPT_TONE := b } }
    | _ => st
  else st

/-- The command (if any) built by one iteration of the set_attribute
loop, following the dispatch of the source on the attribute name.  The
display branch is keyed by the literal string SCREEN_DISPAY exactly as
in the source.  A FRESH_AIR_MODE or FRESH_AIR_FAN_SPEED key whose
guard fails because the fresh-air version is unknown falls through to
the final generic branch, as the else-if chain of the source does. -/
def set_attribute_msg (st : ACState) (k : String) (v : Val) : Option OutMessage :=
  if k ∈ sensor_names then none
  else if k = "PROMPT_TONE" then none
  else if k = "SCREEN_DISPAY" then
    if st.attributes.SCREEN_DISPLAY_NEW then
      some (OutMessage.newproto
        { screen_display := some v, prompt_tone := some (Val.b st.attributes.PROMPT_TONE) })
    else some OutMessage.switchDisplay
  else if k = "INDIRECT_WIND" then
    some (OutMessage.newproto
      { indirect_wind := some v, prompt_tone := some (Val.b st.attributes.PROMPT_TONE) })
  else if k = "BREEZELESS" then
    some (OutMessage.newproto
      { breezeless := some v, prompt_tone := some (Val.b st.attributes.PROMPT_TONE) })
  else if k = "FRESH_AIR_POWER" then
    match st.fresh_air_version with
    | some ver =>
        some (OutMessage.newproto (newproto_fresh_air ver (v, st.attributes.FRESH_AIR_FAN_SPEED)))
    | none => none
  else if k = "FRESH_AIR_MODE" then
    match st.fresh_air_version with
    | some ver =>
        (match mode_speed_of_val v with
         | some sp =>
             some (OutMessage.newproto (newproto_fresh_air ver
               (if 0 < sp then (Val.b true, sp)
                else (Val.b false, st.attributes.FRESH_AIR_FAN_SPEED))))
         | none =>
             if valFalsy v then
               some (OutMessage.newproto (newproto_fresh_air ver
                 (Val.b false, st.attributes.FRESH_AIR_FAN_SPEED)))
             else none)
    | none => generic_message st k v
  else if k = "FRESH_AIR_FAN_SPEED" then
    match st.fresh_air_version with
    | some ver =>
        some (OutMessage.newproto (newproto_fresh_air ver
          (if valGtZero v then (Val.b true, valToInt v)
           else (Val.b false, st.attributes.FRESH_AIR_FAN_SPEED))))
    | none => generic_message st k v
  else generic_message st k v

/-- One iteration of the set_attribute loop. -/
def set_attribute_one (st : ACState) (k : String) (v : Val) : ACState × Option OutMessage :=
  (set_attribute_state st k v, set_attribute_msg st k v)

/-- The set_attribute method: process the requested entries in order,
collecting the commands passed to build_send (modelled from the spec:
build_send, defined in the base class outside the excerpt, frames and
transmits one command; here the transmitted commands are collected in
order). -/
def set_attribute : ACState → List (String × Val) → ACState × List OutMessage
  | st, [] => (st, [])
  | st, (k, v) :: rest =>
      let r := set_attribute_one st k v
      let rr := set_attribute r.1 rest
      (rr.1, match r.2 with
             | some msg => msg :: rr.2
             | none => rr.2)

/-- The set_target_temperature method: a family status-set command
carrying the new target temperature, plus mode and power when a
non-zero (truthy) mode is supplied. -/
def set_target_temperature (st : ACState) (t : Int) (mode : Int) : OutMessage :=
  if st.used_subprotocol then
    let m := { make_subprotocol_message_set st with target_temperature := Val.n t }
    OutMessage.subproto
      (if mode ≠ 0 then { m with mode := Val.n mode, power := Val.b true } else m)
  else
    let m := { make_message_set st with target_temperature := Val.n t }
    OutMessage.general
      (if mode ≠ 0 then { m with mode := Val.n mode, power := Val.b true } else m)

/-- The set_swing method: always a general-family message (the source
calls make_message_set directly, not make_message_unique_set). -/
def set_swing (st : ACState) (swing_horizontal swing_vertical : Bool) : OutMessage :=
  OutMessage.general
    { make_message_set st with
      swing_horizontal := Val.b swing_horizontal,
      swing_vertical := Val.b swing_vertical }

/-! Claim theorems.  Each claim of the specification review is settled
by exactly one theorem below; counterexample and witness theorems
accompany them where the status of the claim requires it. -/

/-- A concrete session whose stored MODE is 2, used to exhibit the
truthiness behaviour of the merge loop. -/
def c1state : ACState :=
  { initState with attributes := { initAttributes with MODE := 2 } }

/-- A decoded response carrying MODE with value 0. -/
def c1body : ACBody := { MODE := some 0 }

/-- C1, counterexample: a response that carries MODE = 0 does not
overwrite the stored attribute (it stays 2) and MODE does not appear
in the change-set, contradicting the claim that every carried value,
including 0 and false, is committed and recorded. -/
theorem C1_counterexample :
    ¬ ((process_message c1state c1body).1.attributes.MODE = 0
       ∧ (process_message c1state c1body).2.MODE = some 0)
    ∧ (process_message c1state c1body).1.attributes.MODE = 2
    ∧ (process_message c1state c1body).2.MODE = none := by
  decide

/-- C1, amended: for every scanned attribute name (the names
initialised in the constructor) other than the derived or forced trio
FRESH_AIR_MODE, INDIRECT_WIND and SCREEN_DISPLAY, a field carried with
a JS-truthy value (true, or a non-zero number) overwrites the stored
attribute and is recorded in the change-set; a field that is absent or
carried with a falsy value (false, 0) leaves the attribute unchanged
and does not appear in the change-set. -/
theorem C1_amended_merge (st : ACState) (body : ACBody) :
    (process_message st body).1.attributes.PROMPT_TONE
      = (if body.PROMPT_TONE = some true then true else st.attributes.PROMPT_TONE)
  ∧ (process_message st body).2.PROMPT_TONE
      = (if body.PROMPT_TONE = some true then some true else none)
  ∧ (process_message st body).1.attributes.POWER
      = (if body.POWER = some true then true else st.attributes.POWER)
  ∧ (process_message st body).2.POWER
      = (if body.POWER = some true then some true else none)
  ∧ (process_message st body).1.attributes.SWING_VERTICAL
      = (if body.SWING_VERTICAL = some true then true else st.attributes.SWING_VERTICAL)
  ∧ (process_message st body).2.SWING_VERTICAL
      = (if body.SWING_VERTICAL = some true then some true else none)
  ∧ (process_message st body).1.attributes.SWING_HORIZONTAL
      = (if body.SWING_HORIZONTAL = some true then true else st.attributes.SWING_HORIZONTAL)
  ∧ (process_message st body).2.SWING_HORIZONTAL
      = (if body.SWING_HORIZONTAL = some true then some true else none)
  ∧ (process_message st body).1.attributes.SMART_EYE
      = (if body.SMART_EYE = some true then true else st.attributes.SMART_EYE)
  ∧ (process_message st body).2.SMART_EYE
      = (if body.SMART_EYE = some true then some true else none)
  ∧ (process_message st body).1.attributes.DRY
      = (if body.DRY = some true then true else st.attributes.DRY)
  ∧ (process_message st body).2.DRY
      = (if body.DRY = some true then some true else none)
  ∧ (process_message st body).1.attributes.AUX_HEATING
      = (if body.AUX_HEATING = some true then true else st.attributes.AUX_HEATING)
  ∧ (process_message st body).2.AUX_HEATING
      = (if body.AUX_HEATING = some true then some true else none)
  ∧ (process_message st body).1.attributes.BOOST_MODE
      = (if body.BOOST_MODE = some true then true else st.attributes.BOOST_MODE)
  ∧ (process_message st body).2.BOOST_MODE
      = (if body.BOOST_MODE = some true then some true else none)
  ∧ (process_message st body).1.attributes.SLEEP_MODE
      = (if body.SLEEP_MODE = some true then true else st.attributes.SLEEP_MODE)
  ∧ (process_message st body).2.SLEEP_MODE
      = (if body.SLEEP_MODE = some true then some true else none)
  ∧ (process_message st body).1.attributes.FROST_PROTECT
      = (if body.FROST_PROTECT = some true then true else st.attributes.FROST_PROTECT)
  ∧ (process_message st body).2.FROST_PROTECT
      = (if body.FROST_PROTECT = some true then some true else none)
  ∧ (process_message st body).1.attributes.COMFORT_MODE
      = (if body.COMFORT_MODE = some true then true else st.attributes.COMFORT_MODE)
  ∧ (process_message st body).2.COMFORT_MODE
      = (if body.COMFORT_MODE = some true then some true else none)
  ∧ (process_message st body).1.attributes.ECO_MODE
      = (if body.ECO_MODE = some true then true else st.attributes.ECO_MODE)
  ∧ (process_message st body).2.ECO_MODE
      = (if body.ECO_MODE = some true then some true else none)
  ∧ (process_message st body).1.attributes.NATURAL_WIND
      = (if body.NATURAL_WIND = some true then true else st.attributes.NATURAL_WIND)
  ∧ (process_message st body).2.NATURAL_WIND
      = (if body.NATURAL_WIND = some true then some true else none)
  ∧ (process_message st body).1.attributes.TEMP_FAHRENHEIT
      = (if body.TEMP_FAHRENHEIT = some true then true else st.attributes.TEMP_FAHRENHEIT)
  ∧ (process_message st body).2.TEMP_FAHRENHEIT
      = (if body.TEMP_FAHRENHEIT = some true then some true else none)
  ∧ (process_message st body).1.attributes.SCREEN_DISPLAY_NEW
      = (if body.SCREEN_DISPLAY_NEW = some true then true else st.attributes.SCREEN_DISPLAY_NEW)
  ∧ (process_message st body).2.SCREEN_DISPLAY_NEW
      = (if body.SCREEN_DISPLAY_NEW = some true then some true else none)
  ∧ (process_message st body).1.attributes.FULL_DUST
      = (if body.FULL_DUST = some true then true else st.attributes.FULL_DUST)
  ∧ (process_message st body).2.FULL_DUST
      = (if body.FULL_DUST = some true then some true else none)
  ∧ (process_message st body).1.attributes.BREEZELESS
      = (if body.BREEZELESS = some true then true else st.attributes.BREEZELESS)
  ∧ (process_message st body).2.BREEZELESS
      = (if body.BREEZELESS = some true then some true else none)
  ∧ (process_message st body).1.attributes.FRESH_AIR_POWER
      = (if body.FRESH_AIR_POWER = some true then true else st.attributes.FRESH_AIR_POWER)
  ∧ (process_message st body).2.FRESH_AIR_POWER
      = (if body.FRESH_AIR_POWER = some true then some true else none)
  ∧ (process_message st body).1.attributes.FRESH_AIR_1
      = (if body.FRESH_AIR_1 = some true then true else st.attributes.FRESH_AIR_1)
  ∧ (process_message st body).2.FRESH_AIR_1
      = (if body.FRESH_AIR_1 = some true then some true else none)
  ∧ (process_message st body).1.attributes.FRESH_AIR_2
      = (if body.FRESH_AIR_2 = some true then true else st.attributes.FRESH_AIR_2)
  ∧ (process_message st body).2.FRESH_AIR_2
      = (if body.FRESH_AIR_2 = some true then some true else none)
  ∧ (process_message st body).1.attributes.MODE
      = (match body.MODE with
         | some n => if n = 0 then st.attributes.MODE else n
         | none => st.attributes.MODE)
  ∧ (process_message st body).2.MODE
      = (match body.MODE with
         | some n => if n = 0 then none else some n
         | none => none)
  ∧ (process_message st body).1.attributes.TARGET_TEMPERATURE
      = (match body.TARGET_TEMPERATURE with
         | some n => if n = 0 then st.attributes.TARGET_TEMPERATURE else n
         | none => st.attributes.TARGET_TEMPERATURE)
  ∧ (process_message st body).2.TARGET_TEMPERATURE
      = (match body.TARGET_TEMPERATURE with
         | some n => if n = 0 then none else some n
         | none => none)
  ∧ (process_message st body).1.attributes.FAN_SPEED
      = (match body.FAN_SPEED with
         | some n => if n = 0 then st.attributes.FAN_SPEED else n
         | none => st.attributes.FAN_SPEED)
  ∧ (process_message st body).2.FAN_SPEED
      = (match body.FAN_SPEED with
         | some n => if n = 0 then none else some n
         | none => none)
  ∧ (process_message st body).1.attributes.REALTIME_POWER
      = (match body.REALTIME_POWER with
         | some n => if n = 0 then st.attributes.REALTIME_POWER else n
         | none => st.attributes.REALTIME_POWER)
  ∧ (process_message st body).2.REALTIME_POWER
      = (match body.REALTIME_POWER with
         | some n => if n = 0 then none else some n
         | none => none)
  ∧ (process_message st body).1.attributes.FRESH_AIR_FAN_SPEED
      = (match body.FRESH_AIR_FAN_SPEED with
         | some n => if n = 0 then st.attributes.FRESH_AIR_FAN_SPEED else n
         | none => st.attributes.FRESH_AIR_FAN_SPEED)
  ∧ (process_message st body).2.FRESH_AIR_FAN_SPEED
      = (match body.FRESH_AIR_FAN_SPEED with
         | some n => if n = 0 then none else some n
         | none => none) :=
  ⟨rfl, rfl, rfl, rfl, rfl, rfl, rfl, rfl, rfl, rfl, rfl, rfl, rfl, rfl, rfl, rfl, rfl, rfl, rfl, rfl, rfl, rfl, rfl, rfl, rfl, rfl, rfl, rfl, rfl, rfl, rfl, rfl, rfl, rfl, rfl, rfl, rfl, rfl, rfl, rfl, rfl, rfl, rfl, rfl, rfl, rfl, rfl, rfl, rfl, rfl⟩


/-- A decoded response reporting fresh-air power on at fan speed 45. -/
def c2body : ACBody := { FRESH_AIR_POWER := some true, FRESH_AIR_FAN_SPEED := some 45 }

/-- C2, evaluation at the failing input: because JavaScript enumerates
the integer-like keys of FRESH_AIR_FAN_SPEEDS_REVERSE in ascending
order, the scan breaks at key 0 for any positive speed, so a report of
fresh-air power on at speed 45 leaves FRESH_AIR_MODE unassigned (the
change-set carries the key with value undefined) instead of the
claimed "Low"; and a report at the stored speed 0 runs the whole loop,
yielding "Full" instead of the claimed "Off" tier for speed 0. -/
theorem C2_code_eval :
    (process_message initState c2body).1.attributes.FRESH_AIR_FAN_SPEED = 45
    ∧ (process_message initState c2body).1.attributes.FRESH_AIR_MODE = none
    ∧ (process_message initState c2body).2.FRESH_AIR_MODE = some none
    ∧ (process_message initState c2body).2.FRESH_AIR_MODE ≠ some (some "Low")
    ∧ (process_message initState { FRESH_AIR_POWER := some true }).1.attributes.FRESH_AIR_MODE
        = some "Full" := by
  decide

/-- C3, evaluation at the failing input: requesting MODE = 2 on a
freshly constructed device emits one general-family command populated
purely from the stored attributes: it carries the stored mode 0 and
the stored power false, not the requested mode with power forced true.
The assignment of the requested value and the power-forcing line sit
inside the mode-group branch, whose guard list does not contain MODE,
so they never execute for a MODE request. -/
theorem C3_code_eval :
    set_attribute initState [("MODE", Val.n 2)]
      = (initState, [OutMessage.general (make_message_set initState)])
    ∧ (make_message_set initState).mode = Val.n 0
    ∧ (make_message_set initState).power = Val.b false := by
  decide

/-- Helper: one set_attribute iteration never changes the detected
fresh-air version. -/
theorem set_attribute_state_fav (st : ACState) (k : String) (v : Val) :
    (set_attribute_state st k v).fresh_air_version = st.fresh_air_version := by
  unfold set_attribute_state
  split_ifs <;> cases v <;> rfl

/-- Helper: one set_attribute iteration never changes the sub-protocol
lock. -/
theorem set_attribute_state_usub (st : ACState) (k : String) (v : Val) :
    (set_attribute_state st k v).used_subprotocol = st.used_subprotocol := by
  unfold set_attribute_state
  split_ifs <;> cases v <;> rfl

/-- Helper: a whole set_attribute call never changes the detected
fresh-air version. -/
theorem set_attribute_fav (st : ACState) (l : List (String × Val)) :
    (set_attribute st l).1.fresh_air_version = st.fresh_air_version := by
  induction l generalizing st with
  | nil => rfl
  | cons kv rest ih =>
      obtain ⟨k, v⟩ := kv
      show (set_attribute (set_attribute_one st k v).1 rest).1.fresh_air_version = _
      rw [ih]
      exact set_attribute_state_fav st k v

/-- Helper: a whole set_attribute call never changes the sub-protocol
lock. -/
theorem set_attribute_usub (st : ACState) (l : List (String × Val)) :
    (set_attribute st l).1.used_subprotocol = st.used_subprotocol := by
  induction l generalizing st with
  | nil => rfl
  | cons kv rest ih =>
      obtain ⟨k, v⟩ := kv
      show (set_attribute (set_attribute_one st k v).1 rest).1.used_subprotocol = _
      rw [ih]
      exact set_attribute_state_usub st k v

/-- C4: requesting any one of the five mutually exclusive mode flags
with value true emits exactly one status-set command of the selected
family in which the requested flag is true and every other group
member that exists in that family is false; on the sub-protocol form
only boost, sleep and eco exist as proper fields, the other two can
appear only as dynamically attached properties (the requested one when
it is FROST_PROTECT or COMFORT_MODE). -/
theorem C4_mode_group_exclusive (st : ACState) (k : String) (hk : k ∈ mode_group) :
    (st.used_subprotocol = false →
      set_attribute st [(k, Val.b true)] =
        (st, [OutMessage.general
          { make_message_set st with
            boost_mode := if k = "BOOST_MODE" then Val.b true else Val.b false,
            sleep_mode := if k = "SLEEP_MODE" then Val.b true else Val.b false,
            eco_mode := if k = "ECO_MODE" then Val.b true else Val.b false,
            frost_protect := if k = "FROST_PROTECT" then Val.b true else Val.b false,
            comfort_mode := if k = "COMFORT_MODE" then Val.b true else Val.b false }]))
    ∧ (st.used_subprotocol = true →
      set_attribute st [(k, Val.b true)] =
        (st, [OutMessage.subproto
          { make_subprotocol_message_set st with
            boost_mode := if k = "BOOST_MODE" then Val.b true else Val.b false,
            sleep_mode := if k = "SLEEP_MODE" then Val.b true else Val.b false,
            eco_mode := if k = "ECO_MODE" then Val.b true else Val.b false,
            frost_protect := if k = "FROST_PROTECT" then some (Val.b true) else none,
            comfort_mode := if k = "COMFORT_MODE" then some (Val.b true) else none }])) := by
  obtain ⟨attrs, fav, usub, sn8, tmr⟩ := st
  simp only [mode_group, List.mem_cons, List.not_mem_nil, or_false] at hk
  cases usub with
  | false =>
      rcases hk with rfl | rfl | rfl | rfl | rfl <;>
        exact ⟨fun h => by
          simp [set_attribute, set_attribute_one, set_attribute_state, set_attribute_msg,
                generic_message, apply_mode_group_general, apply_mode_group_subprotocol,
                assign_general, assign_subprotocol, sensor_names, mode_group,
                make_message_set, make_subprotocol_message_set],
          fun h => absurd h (by simp)⟩
  | true =>
      rcases hk with rfl | rfl | rfl | rfl | rfl <;>
        exact ⟨fun h => absurd h (by simp), fun h => by
          simp [set_attribute, set_attribute_one, set_attribute_state, set_attribute_msg,
                generic_message, apply_mode_group_general, apply_mode_group_subprotocol,
                assign_general, assign_subprotocol, sensor_names, mode_group,
                make_message_set, make_subprotocol_message_set]⟩

/-- C4, witness: a BOOST_MODE request on a freshly constructed
(general-family) session. -/
theorem C4_witness :
    set_attribute initState [("BOOST_MODE", Val.b true)] =
      (initState, [OutMessage.general
        { make_message_set initState with
          boost_mode := Val.b true, sleep_mode := Val.b false, eco_mode := Val.b false,
          frost_protect := Val.b false, comfort_mode := Val.b false }]) := by
  have h := (C4_mode_group_exclusive initState "BOOST_MODE" (by decide)).1 rfl
  simpa using h

/-- C6: a set request naming any sensor-only attribute builds no
command and leaves the whole session state unchanged (and the source
path raises nothing there: the name simply fails the non-sensor guard
and the loop moves on). -/
theorem C6_sensor_noop (st : ACState) (k : String) (v : Val) (hk : k ∈ sensor_names) :
    set_attribute st [(k, v)] = (st, []) := by
  simp only [sensor_names, List.mem_cons, List.not_mem_nil, or_false] at hk
  rcases hk with rfl | rfl | rfl | rfl | rfl | rfl | rfl <;> rfl

/-- C6, witness: a REALTIME_POWER set request is a silent no-op. -/
theorem C6_witness :
    set_attribute initState [("REALTIME_POWER", Val.n 7)] = (initState, []) :=
  C6_sensor_noop initState "REALTIME_POWER" (Val.n 7) (by decide)

/-- A sub-protocol-locked session. -/
def c9state : ACState := { initState with used_subprotocol := true }

/-- C5: after any process_message call, a stored POWER of false forces
INDIRECT_WIND and SCREEN_DISPLAY to false in the stored attributes and
records both as false in the change-set (even when they were already
false); and whenever the change-set carries SWING_VERTICAL = true,
INDIRECT_WIND is forced false and recorded as well. -/
theorem C5_power_off_forcing (st : ACState) (body : ACBody) :
    ((process_message st body).1.attributes.POWER = false →
       (process_message st body).1.attributes.INDIRECT_WIND = false
     ∧ (process_message st body).1.attributes.SCREEN_DISPLAY = false
     ∧ (process_message st body).2.INDIRECT_WIND = some false
     ∧ (process_message st body).2.SCREEN_DISPLAY = some false)
  ∧ ((process_message st body).2.SWING_VERTICAL = some true →
       (process_message st body).1.attributes.INDIRECT_WIND = false
     ∧ (process_message st body).2.INDIRECT_WIND = some false) := by
  constructor
  · intro h
    have hp : (merge_attributes st.attributes body).POWER = false := h
    simp [process_message, hp]
  · intro h
    have hb : body.SWING_VERTICAL = some true := by
      have h2 : mergeBCS body.SWING_VERTICAL = some true := h
      by_cases hsv : body.SWING_VERTICAL = some true
      · exact hsv
      · simp [mergeBCS, hsv] at h2
    constructor <;>
      simp [process_message, merge_attributes, merge_changeset, mergeBVal, mergeBCS, hb]

/-- A decoded response carrying SWING_VERTICAL true (and no POWER
field, so a powered-off session stays powered off). -/
def c5body : ACBody := { SWING_VERTICAL := some true }

/-- C5, witness: both forcing rules fire on a freshly constructed
(powered-off) session receiving a SWING_VERTICAL = true report. -/
theorem C5_witness :
    ((process_message initState c5body).1.attributes.INDIRECT_WIND = false
   ∧ (process_message initState c5body).1.attributes.SCREEN_DISPLAY = false
   ∧ (process_message initState c5body).2.INDIRECT_WIND = some false
   ∧ (process_message initState c5body).2.SCREEN_DISPLAY = some false)
  ∧ ((process_message initState c5body).1.attributes.INDIRECT_WIND = false
   ∧ (process_message initState c5body).2.INDIRECT_WIND = some false) :=
  ⟨(C5_power_off_forcing initState c5body).1 (by decide),
   (C5_power_off_forcing initState c5body).2 (by decide)⟩

/-- C7, counterexample: with the fresh-air version still unknown, a
FRESH_AIR_FAN_SPEED set request does build an outbound command (the
guard failure makes the else-if chain fall through to the generic
branch, which emits a general-family status-set command),
contradicting the claim that no fresh-air attribute request builds any
command before the version is known. -/
theorem C7_counterexample :
    (set_attribute initState [("FRESH_AIR_FAN_SPEED", Val.n 50)]).2 =
      [OutMessage.general (make_message_set initState)]
    ∧ (set_attribute initState [("FRESH_AIR_FAN_SPEED", Val.n 50)]).2 ≠ [] := by
  decide

/-- C7, amended: while the fresh-air version is unknown a
FRESH_AIR_POWER request builds no command, while FRESH_AIR_MODE and
FRESH_AIR_FAN_SPEED requests fall through to the generic status-set
path and emit one family status-set command populated from the stored
attributes (carrying no fresh-air field); no error reaches the caller.
The detected version equals 1 whenever the merged FRESH_AIR_1 flag is
set (taking priority), else 2 whenever FRESH_AIR_2 is set, else the
previous value; once known it stays known across process_message, and
set_attribute never changes it. -/
theorem C7_fresh_air_version_gating :
    (∀ st v, st.fresh_air_version = none →
       set_attribute st [("FRESH_AIR_POWER", v)] = (st, []))
  ∧ (∀ st v, st.fresh_air_version = none →
       set_attribute st [("FRESH_AIR_MODE", v)] =
         (st, [if st.used_subprotocol then
                 OutMessage.subproto (make_subprotocol_message_set st)
               else OutMessage.general (make_message_set st)]))
  ∧ (∀ st v, st.fresh_air_version = none →
       set_attribute st [("FRESH_AIR_FAN_SPEED", v)] =
         (st, [if st.used_subprotocol then
                 OutMessage.subproto (make_subprotocol_message_set st)
               else OutMessage.general (make_message_set st)]))
  ∧ (∀ st body, (process_message st body).1.fresh_air_version =
       (if (process_message st body).1.attributes.FRESH_AIR_1 then some 1
        else if (process_message st body).1.attributes.FRESH_AIR_2 then some 2
        else st.fresh_air_version))
  ∧ (∀ st body, st.fresh_air_version.isSome = true →
       (process_message st body).1.fresh_air_version.isSome = true)
  ∧ (∀ st l, (set_attribute st l).1.fresh_air_version = st.fresh_air_version) := by
  refine ⟨fun st v h => ?_, fun st v h => ?_, fun st v h => ?_,
          fun st body => rfl, fun st body h => ?_, fun st l => set_attribute_fav st l⟩
  · obtain ⟨attrs, fav, usub, sn8, tmr⟩ := st
    simp only at h
    subst h
    rfl
  · obtain ⟨attrs, fav, usub, sn8, tmr⟩ := st
    simp only at h
    subst h
    cases usub <;> rfl
  · obtain ⟨attrs, fav, usub, sn8, tmr⟩ := st
    simp only at h
    subst h
    cases usub <;> rfl
  · simp only [process_message]
    split_ifs <;> simp [h]

/-- A session that has learned fresh-air version 1. -/
def c7state : ACState := { initState with fresh_air_version := some 1 }

/-- C7, witness: the gating theorem applied on a fresh session (version
unknown) and the stickiness conjunct on a session knowing version 1. -/
theorem C7_witness :
    set_attribute initState [("FRESH_AIR_POWER", Val.b true)] = (initState, [])
    ∧ set_attribute initState [("FRESH_AIR_MODE", Val.s "Low")] =
        (initState, [if initState.used_subprotocol then
                       OutMessage.subproto (make_subprotocol_message_set initState)
                     else OutMessage.general (make_message_set initState)])
    ∧ (process_message c7state {}).1.fresh_air_version.isSome = true :=
  ⟨C7_fresh_air_version_gating.1 initState (Val.b true) rfl,
   C7_fresh_air_version_gating.2.1 initState (Val.s "Low") rfl,
   C7_fresh_air_version_gating.2.2.2.2.1 c7state {} rfl⟩

/-- C8, counterexample: a set request on the attribute actually named
SCREEN_DISPLAY does not reach the display-toggle branch (which tests
the literal SCREEN_DISPAY): on a device without the new screen-display
capability the claim expects a dedicated switch-display command, but
the request routes to the generic path and emits a general-family
status-set command instead. -/
theorem C8_counterexample :
    (set_attribute initState [("SCREEN_DISPLAY", Val.b true)]).2 =
      [OutMessage.general (make_message_set initState)]
    ∧ (set_attribute initState [("SCREEN_DISPLAY", Val.b true)]).2 ≠
        [OutMessage.switchDisplay] := by
  decide

/-- C8, amended: the display-toggle branch is keyed by the literal
string SCREEN_DISPAY; a request with that key builds exactly one
command (a new-protocol set carrying the requested display flag and
the stored prompt-tone preference when SCREEN_DISPLAY_NEW is true,
otherwise the dedicated switch-display command with no further
payload) and leaves the state unchanged, while a request keyed by the
attribute name SCREEN_DISPLAY routes to the generic status-set path. -/
theorem C8_display_toggle (st : ACState) (v : Val) :
    set_attribute st [("SCREEN_DISPAY", v)] =
      (st, [if st.attributes.SCREEN_DISPLAY_NEW then
              OutMessage.newproto
                { screen_display := some v,
                  prompt_tone := some (Val.b st.attributes.PROMPT_TONE) }
            else OutMessage.switchDisplay])
  ∧ set_attribute st [("SCREEN_DISPLAY", v)] =
      (st, [if st.used_subprotocol then
              OutMessage.subproto (make_subprotocol_message_set st)
            else OutMessage.general (make_message_set st)]) := by
  constructor
  · cases hS : st.attributes.SCREEN_DISPLAY_NEW <;>
      simp [set_attribute, set_attribute_one, set_attribute_state, set_attribute_msg,
            sensor_names, hS]
  · obtain ⟨attrs, fav, usub, sn8, tmr⟩ := st
    cases usub <;> rfl

set_option maxHeartbeats 1000000 in
/-- Helper: when the session is sub-protocol-locked, no single
set_attribute iteration ever builds a general-family command. -/
theorem set_attribute_msg_not_general (st : ACState) (k : String) (v : Val)
    (h : st.used_subprotocol = true) (m : OutMessage)
    (hm : set_attribute_msg st k v = some m) : m.isGeneral = false := by
  unfold set_attribute_msg generic_message at hm
  rw [h] at hm
  split_ifs at hm <;>
    first
      | exact absurd rfl (by assumption)
      | (cases hm <;> rfl)
      | (repeat' split at hm) <;> (cases hm <;> rfl)

/-- Helper: when the session is sub-protocol-locked, no command emitted
by a whole set_attribute call is a general-family command (the state
stays locked throughout the loop). -/
theorem set_attribute_not_general (st : ACState) (l : List (String × Val))
    (h : st.used_subprotocol = true) (m : OutMessage)
    (hm : m ∈ (set_attribute st l).2) : m.isGeneral = false := by
  induction l generalizing st with
  | nil => simp [set_attribute] at hm
  | cons kv rest ih =>
      obtain ⟨k, v⟩ := kv
      rcases hmsg : set_attribute_msg st k v with _ | msg
      · have hm2 : m ∈ (set_attribute (set_attribute_state st k v) rest).2 := by
          simpa [set_attribute, set_attribute_one, hmsg] using hm
        exact ih _ (by rw [set_attribute_state_usub]; exact h) hm2
      · have hm2 : m = msg ∨ m ∈ (set_attribute (set_attribute_state st k v) rest).2 := by
          simpa [set_attribute, set_attribute_one, hmsg] using hm
        rcases hm2 with rfl | hm2
        · exact set_attribute_msg_not_general st k v h m hmsg
        · exact ih _ (by rw [set_attribute_state_usub]; exact h) hm2

/-- C9, counterexample: on a sub-protocol-locked session, set_swing
still issues a general-family command (the source calls
make_message_set unconditionally), contradicting the claim that the
general family is never issued again by any operation. -/
theorem C9_counterexample :
    c9state.used_subprotocol = true
    ∧ (set_swing c9state true false).isGeneral = true := by
  decide

/-- C9, amended: once a processed response carries the sub-protocol
marker the lock is permanent (process_message keeps it set and
set_attribute never clears it), build_query returns exactly the three
sub-protocol queries with codes 0x10, 0x11 and 0x30, and neither
set_attribute nor set_target_temperature ever issues a general-family
command again; set_swing is the exception, always using the
general-family set command. -/
theorem C9_subprotocol_sticky (st : ACState) (h : st.used_subprotocol = true) :
    (∀ body, (process_message st body).1.used_subprotocol = true)
  ∧ build_query st =
      [QueryMessage.subProtocolQuery 0x10, QueryMessage.subProtocolQuery 0x11,
       QueryMessage.subProtocolQuery 0x30]
  ∧ (∀ l, (set_attribute st l).1.used_subprotocol = true)
  ∧ (∀ l m, m ∈ (set_attribute st l).2 → m.isGeneral = false)
  ∧ (∀ t mo, (set_target_temperature st t mo).isGeneral = false) := by
  refine ⟨fun body => ?_, ?_, fun l => ?_,
          fun l m hm => set_attribute_not_general st l h m hm, fun t mo => ?_⟩
  · simp [process_message, h]
  · simp [build_query, h]
  · rw [set_attribute_usub]; exact h
  · simp [set_target_temperature, h, OutMessage.isGeneral]

/-- C9, witness: the conjuncts of the stickiness theorem instantiated
on a locked session. -/
theorem C9_witness :
    (process_message c9state {}).1.used_subprotocol = true
  ∧ build_query c9state =
      [QueryMessage.subProtocolQuery 0x10, QueryMessage.subProtocolQuery 0x11,
       QueryMessage.subProtocolQuery 0x30]
  ∧ (set_attribute c9state [("POWER", Val.b true)]).1.used_subprotocol = true
  ∧ (OutMessage.subproto (make_subprotocol_message_set c9state)).isGeneral = false
  ∧ (set_target_temperature c9state 25 1).isGeneral = false := by
  have h := C9_subprotocol_sticky c9state rfl
  exact ⟨h.1 {}, h.2.1, h.2.2.1 [("POWER", Val.b true)],
         h.2.2.2.1 [("POWER", Val.b true)] _ (by decide), h.2.2.2.2 25 1⟩

/-- The example names of C10: attributes routed to the generic
status-set path that are not in the mutually exclusive mode group. -/
def generic_plain_names : List String :=
  ["TARGET_TEMPERATURE", "FAN_SPEED", "POWER", "MODE", "SWING_VERTICAL", "SWING_HORIZONTAL"]

/-- C10: a set request on a generic-path attribute outside the mode
group emits one status-set command of the selected family populated
entirely from the stored attributes (the requested value appears
nowhere in it) and leaves the whole session state, stored attributes
included, unchanged. -/
theorem C10_stored_populated (st : ACState) (k : String) (v : Val)
    (hk : k ∈ generic_plain_names) :
    set_attribute st [(k, v)] =
      (st, [if st.used_subprotocol then
              OutMessage.subproto (make_subprotocol_message_set st)
            else OutMessage.general (make_message_set st)]) := by
  obtain ⟨attrs, fav, usub, sn8, tmr⟩ := st
  simp only [generic_plain_names, List.mem_cons, List.not_mem_nil, or_false] at hk
  rcases hk with rfl | rfl | rfl | rfl | rfl | rfl <;> cases usub <;> rfl

/-- C10, witness: a TARGET_TEMPERATURE request on a fresh session. -/
theorem C10_witness :
    set_attribute initState [("TARGET_TEMPERATURE", Val.n 25)] =
      (initState, [if initState.used_subprotocol then
                     OutMessage.subproto (make_subprotocol_message_set initState)
                   else OutMessage.general (make_message_set initState)]) :=
  C10_stored_populated initState "TARGET_TEMPERATURE" (Val.n 25) (by decide)

end MideaAC
